import Mathlib

/-!
Shallow embedding of `src/main.py` (hse_expo_back): a FastAPI + sqlite3
member/attendance service.  The store is modelled as the two tables
`members(id, full_name, team_name)` and
`checkin_checkout(id→position, member_id UNIQUE, check_in, check_out)`;
each HTTP handler becomes a function from the request data and the store
to a response (`Except HTTPError α`) paired with the post-state of the
store.  The wall clock (`datetime.now()`) and the possibility of an
`IntegrityError` being raised by the attendance upsert are passed in as
explicit parameters, since they are external inputs of the handler.
-/

namespace HseExpo

/-- A timestamp as stored by the service (`datetime` values produced by
`datetime.now()` and re-parsed by `dateutil.parser.parse`). -/
structure DateTime where
  year : Nat
  month : Nat
  day : Nat
  hour : Nat
  minute : Nat
  second : Nat
deriving DecidableEq

/-- Number of decimal digits of a natural number (1 for numbers below 10). -/
def digitsLen (n : Nat) : Nat :=
  if _h : n < 10 then 1 else digitsLen (n / 10) + 1
termination_by n
decreasing_by
  exact Nat.div_lt_self (by omega) (by omega)

/-- Decimal rendering zero-padded to width 2: Python `"%02d"` (as in
`%d`, `%m`, `%I`, `%M` of the format string in `format_datetime`). -/
def pad2 (n : Nat) : String :=
  if n < 10 then "0" ++ Nat.repr n else Nat.repr n

/-- Decimal rendering zero-padded to width 4: Python `"%04d"`, the
behaviour of `%Y`. -/
def pad4 (n : Nat) : String :=
  if n < 10 then "000" ++ Nat.repr n
  else if n < 100 then "00" ++ Nat.repr n
  else if n < 1000 then "0" ++ Nat.repr n
  else Nat.repr n

/-- Python `%I`: hour on the 12-hour clock, in 1..12. -/
def hour12 (h : Nat) : Nat :=
  if h % 12 = 0 then 12 else h % 12

/-- Python `%p` in the C locale: uppercase AM/PM marker. -/
def ampm (h : Nat) : String :=
  if h < 12 then "AM" else "PM"

/-- `dt_obj.strftime("%d-%m-%Y %I:%M %p")` from `format_datetime`, also
used on `now` in the check-in / check-out success messages. -/
def strftime (dt : DateTime) : String :=
  pad2 dt.day ++ "-" ++ pad2 dt.month ++ "-" ++ pad4 dt.year ++ " " ++
    pad2 (hour12 dt.hour) ++ ":" ++ pad2 dt.minute ++ " " ++ ampm dt.hour

/-- `format_datetime`: `None` maps to `None`, a present timestamp is
rendered with the display format. -/
def format_datetime : Option DateTime → Option String
  | some dt => some (strftime dt)
  | none => none

/-- A row of the `members` table. -/
structure MemberRow where
  id : Nat
  full_name : String
  team_name : String
deriving DecidableEq

/-- A row of the `checkin_checkout` table (its surrogate `id` primary key
plays no role in the handlers and is omitted; `member_id` is UNIQUE). -/
structure AttendanceRow where
  member_id : Nat
  check_in : Option DateTime
  check_out : Option DateTime
deriving DecidableEq

/-- The persistent store: the two tables created by `init_db`. -/
structure DB where
  members : List MemberRow
  checkin_checkout : List AttendanceRow
deriving DecidableEq

/-- `SELECT * FROM members WHERE id = ?` followed by `fetchone()`. -/
def findMember (db : DB) (member_id : Nat) : Option MemberRow :=
  db.members.find? (fun m => m.id == member_id)

/-- `SELECT * FROM checkin_checkout WHERE member_id = ?`, `fetchone()`. -/
def findAtt (db : DB) (member_id : Nat) : Option AttendanceRow :=
  db.checkin_checkout.find? (fun a => a.member_id == member_id)

/-- `cursor.lastrowid` for an `INTEGER PRIMARY KEY` column with no
deletions: one more than the largest existing id (1 on an empty table). -/
def nextId (db : DB) : Nat :=
  (db.members.map MemberRow.id).foldr max 0 + 1

/-- An HTTP error response (`HTTPException(status_code, detail)`, and the
422 reply FastAPI produces when pydantic validation fails). -/
structure HTTPError where
  status : Nat
  detail : String
deriving DecidableEq

/-- The 404 body used by every handler. -/
def notFound : HTTPError :=
  ⟨404, "Member not found"⟩

/-- The reply FastAPI sends when a required field of `MemberCreate` is
absent from the request body. -/
def validationError : HTTPError :=
  ⟨422, "field required"⟩

/-- The response model `Member`: id, names, and display-formatted
attendance timestamps. -/
structure MemberOut where
  id : Nat
  full_name : String
  team_name : String
  check_in : Option String
  check_out : Option String
deriving DecidableEq

/-- A JSON body for `POST /members/` before pydantic validation: each of
the two required fields may be missing. -/
structure MemberCreateBody where
  full_name : Option String
  team_name : Option String
deriving DecidableEq

/-- `MemberUpdate`: each field is independently absent (`none`),
explicitly null (`some none`), or a string (`some (some s)`);
`dict(exclude_unset=True)` keeps exactly the `some _` fields. -/
structure MemberUpdate where
  full_name : Option (Option String)
  team_name : Option (Option String)
deriving DecidableEq

/-- Build the `Member` response from a member row and the result of the
attendance lookup, as every read path does:
`format_datetime(cc["check_in"]) if cc else None`. -/
def memberOut (m : MemberRow) (att : Option AttendanceRow) : MemberOut :=
  { id := m.id
    full_name := m.full_name
    team_name := m.team_name
    check_in := match att with
      | some a => format_datetime a.check_in
      | none => none
    check_out := match att with
      | some a => format_datetime a.check_out
      | none => none }

/-- `POST /members/` (`create_member`): pydantic rejects a missing field;
otherwise the row is inserted (any string, empty included, is accepted)
and the response carries the fresh id and null attendance fields. -/
def create_member (body : MemberCreateBody) (db : DB) :
    Except HTTPError MemberOut × DB :=
  match body.full_name, body.team_name with
  | some f, some t =>
    (Except.ok ⟨nextId db, f, t, none, none⟩,
     ⟨db.members ++ [⟨nextId db, f, t⟩], db.checkin_checkout⟩)
  | _, _ => (Except.error validationError, db)

/-- `GET /members/{member_id}` (`get_member`). -/
def get_member (member_id : Nat) (db : DB) :
    Except HTTPError MemberOut × DB :=
  match findMember db member_id with
  | none => (Except.error notFound, db)
  | some m => (Except.ok (memberOut m (findAtt db member_id)), db)

/-- The effect of
`UPDATE members SET full_name = COALESCE(?, full_name),
team_name = COALESCE(?, team_name) WHERE id = ?` on one row, where the
parameters are `update_data.get('full_name')` / `.get('team_name')`
(both `None` when the field was unset or explicitly null). -/
def applyUpdate (mu : MemberUpdate) (member_id : Nat) (r : MemberRow) :
    MemberRow :=
  if r.id == member_id then
    { r with
      full_name := (Option.join mu.full_name).getD r.full_name
      team_name := (Option.join mu.team_name).getD r.team_name }
  else r

/-- `PUT /members/{member_id}` (`update_member`): 404 when the member is
absent; the UPDATE runs only when `update_data` is non-empty, i.e. at
least one field was set in the request body; the handler then re-selects
the member and returns it joined with its attendance state. -/
def update_member (member_id : Nat) (mu : MemberUpdate) (db : DB) :
    Except HTTPError MemberOut × DB :=
  match findMember db member_id with
  | none => (Except.error notFound, db)
  | some _ =>
    let db' : DB :=
      if mu.full_name.isSome || mu.team_name.isSome then
        { db with members := db.members.map (applyUpdate mu member_id) }
      else db
    match findMember db' member_id with
    | some m' => (Except.ok (memberOut m' (findAtt db' member_id)), db')
    | none => (Except.error ⟨500, "Internal Server Error"⟩, db')

/-- Python truthiness of `checkin_checkout and checkin_checkout["check_in"]`:
a fetched row exists and its `check_in` column is non-null. -/
def hasCheckIn : Option AttendanceRow → Bool
  | some a => a.check_in.isSome
  | none => false

/-- Truthiness of `checkin_checkout and checkin_checkout["check_out"]`. -/
def hasCheckOut : Option AttendanceRow → Bool
  | some a => a.check_out.isSome
  | none => false

/-- `INSERT INTO checkin_checkout (member_id, check_in) VALUES (?, ?)
ON CONFLICT(member_id) DO UPDATE SET check_in = excluded.check_in`:
update the row with this `member_id` when one exists (the UNIQUE
constraint guarantees there is at most one), else insert a fresh row
whose `check_out` is null. -/
def upsert_check_in (member_id : Nat) (now : DateTime)
    (l : List AttendanceRow) : List AttendanceRow :=
  if l.any (fun a => a.member_id == member_id) then
    l.map (fun a =>
      if a.member_id == member_id then { a with check_in := some now } else a)
  else l ++ [⟨member_id, some now, none⟩]

/-- The symmetric upsert of the checkout handler, targeting `check_out`. -/
def upsert_check_out (member_id : Nat) (now : DateTime)
    (l : List AttendanceRow) : List AttendanceRow :=
  if l.any (fun a => a.member_id == member_id) then
    l.map (fun a =>
      if a.member_id == member_id then { a with check_out := some now } else a)
  else l ++ [⟨member_id, none, some now⟩]

/-- `POST /checkin/{member_id}` (`checkin`).  `now` is the value of
`datetime.now()`; `integrity` is `some cause` when the upsert raises
`IntegrityError` with that message, in which case the transaction is
rolled back and a 500 is returned with the cause in the detail. -/
def checkin (member_id : Nat) (now : DateTime) (integrity : Option String)
    (db : DB) : Except HTTPError String × DB :=
  match findMember db member_id with
  | none => (Except.error notFound, db)
  | some m =>
    if hasCheckIn (findAtt db member_id) then
      (Except.ok ("The member " ++ m.full_name ++ " is already checked in."),
       db)
    else
      match integrity with
      | some cause =>
        (Except.error
          ⟨500, "Database integrity error during check-in: " ++ cause⟩, db)
      | none =>
        (Except.ok ("The member " ++ m.full_name ++ " has checked in at " ++
            strftime now ++ "."),
         { db with
           checkin_checkout :=
             upsert_check_in member_id now db.checkin_checkout })

/-- `POST /checkout/{member_id}` (`checkout`), symmetric to `checkin` but
keyed on `check_out`. -/
def checkout (member_id : Nat) (now : DateTime) (integrity : Option String)
    (db : DB) : Except HTTPError String × DB :=
  match findMember db member_id with
  | none => (Except.error notFound, db)
  | some m =>
    if hasCheckOut (findAtt db member_id) then
      (Except.ok ("The member " ++ m.full_name ++ " is already checked out."),
       db)
    else
      match integrity with
      | some cause =>
        (Except.error
          ⟨500, "Database integrity error during check-out: " ++ cause⟩, db)
      | none =>
        (Except.ok ("The member " ++ m.full_name ++ " has checked out at " ++
            strftime now ++ "."),
         { db with
           checkin_checkout :=
             upsert_check_out member_id now db.checkin_checkout })

/-- One request against the service (external inputs included). -/
inductive Op where
  | create (body : MemberCreateBody)
  | update (member_id : Nat) (mu : MemberUpdate)
  | checkIn (member_id : Nat) (now : DateTime) (integrity : Option String)
  | checkOut (member_id : Nat) (now : DateTime) (integrity : Option String)

/-- The store state after serving one request. -/
def applyOp (db : DB) : Op → DB
  | .create body => (create_member body db).2
  | .update member_id mu => (update_member member_id mu db).2
  | .checkIn member_id now integrity => (checkin member_id now integrity db).2
  | .checkOut member_id now integrity =>
    (checkout member_id now integrity db).2

/-- The store state after serving a sequence of requests. -/
def applyOps (db : DB) (ops : List Op) : DB :=
  ops.foldl applyOp db

/-- The UNIQUE constraint of `checkin_checkout.member_id`: no two
attendance rows share a member id. -/
def attendanceUnique (db : DB) : Prop :=
  (db.checkin_checkout.map AttendanceRow.member_id).Nodup

instance : DecidablePred attendanceUnique := fun db =>
  List.nodupDecidable (db.checkin_checkout.map AttendanceRow.member_id)

/-! ### Decimal-length facts for the display format -/

lemma digitsLen_of_lt {n : Nat} (h : n < 10) : digitsLen n = 1 := by
  unfold digitsLen
  simp [h]

lemma digitsLen_of_ge {n : Nat} (h : ¬ n < 10) : digitsLen n = digitsLen (n / 10) + 1 := by
  conv_lhs => unfold digitsLen
  simp [h]

lemma toDigitsCore_ten_length :
    ∀ (f n : Nat) (ds : List Char), n < f →
      (Nat.toDigitsCore 10 f n ds).length = digitsLen n + ds.length := by
  intro f
  induction f with
  | zero => intro n ds h; omega
  | succ f ih =>
    intro n ds h
    simp only [Nat.toDigitsCore]
    by_cases h0 : n / 10 = 0
    · have hn : n < 10 := by omega
      simp [h0, digitsLen_of_lt hn]
      omega
    · have hn : ¬ n < 10 := by omega
      simp only [h0, if_false]
      rw [ih (n / 10) _ (by omega), digitsLen_of_ge hn]
      simp
      omega

lemma repr_length_eq_digitsLen (n : Nat) : (Nat.repr n).length = digitsLen n := by
  have h := toDigitsCore_ten_length (n + 1) n [] (by omega)
  simpa [Nat.repr, Nat.toDigits, String.length, List.asString] using h

lemma pad2_length {n : Nat} (h : n < 100) : (pad2 n).length = 2 := by
  unfold pad2
  by_cases h10 : n < 10
  · rw [if_pos h10]
    rw [String.length_append, repr_length_eq_digitsLen, digitsLen_of_lt h10]
    rfl
  · rw [if_neg h10]
    rw [repr_length_eq_digitsLen, digitsLen_of_ge h10,
      digitsLen_of_lt (by omega)]

lemma pad4_length {n : Nat} (h : n < 10000) : (pad4 n).length = 4 := by
  unfold pad4
  by_cases h10 : n < 10
  · rw [if_pos h10, String.length_append, repr_length_eq_digitsLen,
      digitsLen_of_lt h10]
    rfl
  · rw [if_neg h10]
    by_cases h100 : n < 100
    · rw [if_pos h100, String.length_append, repr_length_eq_digitsLen,
        digitsLen_of_ge h10, digitsLen_of_lt (by omega)]
      rfl
    · rw [if_neg h100]
      by_cases h1000 : n < 1000
      · rw [if_pos h1000, String.length_append, repr_length_eq_digitsLen,
          digitsLen_of_ge h10, digitsLen_of_ge (by omega),
          digitsLen_of_lt (by omega)]
        rfl
      · rw [if_neg h1000, repr_length_eq_digitsLen,
          digitsLen_of_ge h10, digitsLen_of_ge (by omega),
          digitsLen_of_ge (by omega), digitsLen_of_lt (by omega)]

lemma hour12_pos (h : Nat) : 1 ≤ hour12 h := by
  unfold hour12
  by_cases h0 : h % 12 = 0
  · simp [h0]
  · simp only [h0, if_false]
    omega

lemma hour12_le (h : Nat) : hour12 h ≤ 12 := by
  unfold hour12
  by_cases h0 : h % 12 = 0
  · simp [h0]
  · simp only [h0, if_false]
    have := Nat.mod_lt h (show 0 < 12 by omega)
    omega

lemma ampm_cases (h : Nat) : ampm h = "AM" ∨ ampm h = "PM" := by
  unfold ampm
  by_cases h12 : h < 12
  · simp [h12]
  · simp [h12]

/-! ### Store lookup facts -/

lemma findMember_some_id {db : DB} {i : Nat} {m : MemberRow}
    (hm : findMember db i = some m) : m.id = i := by
  unfold findMember at hm
  have := List.find?_some hm
  simpa using this

lemma findMember_some_mem {db : DB} {i : Nat} {m : MemberRow}
    (hm : findMember db i = some m) : m ∈ db.members := by
  unfold findMember at hm
  exact List.mem_of_find?_eq_some hm

lemma find?_map_pres {α : Type} (f : α → α) (p : α → Bool)
    (hf : ∀ a, p (f a) = p a) :
    ∀ l : List α, (l.map f).find? p = (l.find? p).map f := by
  intro l
  induction l with
  | nil => rfl
  | cons a t ih =>
    cases hp : p a
    · rw [List.map_cons, List.find?_cons_of_neg _ (by simp [hf, hp]),
        List.find?_cons_of_neg _ (by simp [hp]), ih]
    · rw [List.map_cons, List.find?_cons_of_pos _ (by simp [hf, hp]),
        List.find?_cons_of_pos _ hp]
      rfl

lemma find?_append_left {α : Type} (p : α → Bool) :
    ∀ (l₁ l₂ : List α), l₁.find? p = none →
      (l₁ ++ l₂).find? p = l₂.find? p := by
  intro l₁
  induction l₁ with
  | nil => intro l₂ _; rfl
  | cons a t ih =>
    intro l₂ h
    cases hp : p a
    · rw [List.cons_append, List.find?_cons_of_neg _ (by simp [hp])]
      apply ih
      rwa [List.find?_cons_of_neg _ (by simp [hp])] at h
    · rw [List.find?_cons_of_pos _ hp] at h
      exact absurd h (by simp)

lemma applyUpdate_id (mu : MemberUpdate) (i : Nat) (r : MemberRow) :
    (applyUpdate mu i r).id = r.id := by
  unfold applyUpdate
  by_cases h : (r.id == i) = true <;> simp [h]

lemma findMember_map_applyUpdate (mu : MemberUpdate) (i : Nat) (db : DB) :
    findMember ⟨db.members.map (applyUpdate mu i), db.checkin_checkout⟩ i =
      (findMember db i).map (applyUpdate mu i) := by
  unfold findMember
  exact find?_map_pres (applyUpdate mu i) (fun m => m.id == i)
    (fun a => by
      show ((applyUpdate mu i a).id == i) = (a.id == i)
      rw [applyUpdate_id]) db.members

/-! ### Frame facts: which table each handler touches -/

lemma create_member_cc (body : MemberCreateBody) (db : DB) :
    (create_member body db).2.checkin_checkout = db.checkin_checkout := by
  unfold create_member
  cases body.full_name <;> cases body.team_name <;> rfl

lemma update_member_cc (i : Nat) (mu : MemberUpdate) (db : DB) :
    (update_member i mu db).2.checkin_checkout = db.checkin_checkout := by
  unfold update_member
  cases findMember db i with
  | none => rfl
  | some m =>
    simp only
    split <;> split <;> rfl

lemma update_member_members (i : Nat) (mu : MemberUpdate) (db : DB)
    (hset : mu.full_name.isSome || mu.team_name.isSome)
    (hm : (findMember db i).isSome) :
    (update_member i mu db).2.members = db.members.map (applyUpdate mu i) := by
  unfold update_member
  cases hfm : findMember db i with
  | none => rw [hfm] at hm; simp at hm
  | some m =>
    simp only [hset, if_pos]
    split <;> rfl

lemma update_member_members_noset (i : Nat) (mu : MemberUpdate) (db : DB)
    (hset : ¬ (mu.full_name.isSome || mu.team_name.isSome)) :
    (update_member i mu db).2 = db := by
  unfold update_member
  cases hfm : findMember db i with
  | none => rfl
  | some m =>
    simp only [if_neg hset, hfm]

/-! ### The attendance upsert and the UNIQUE(member_id) constraint -/

lemma upsert_check_in_member_ids (mid : Nat) (now : DateTime)
    (l : List AttendanceRow) :
    (upsert_check_in mid now l).map AttendanceRow.member_id =
        l.map AttendanceRow.member_id ∨
      ((upsert_check_in mid now l).map AttendanceRow.member_id =
          l.map AttendanceRow.member_id ++ [mid] ∧
        mid ∉ l.map AttendanceRow.member_id) := by
  unfold upsert_check_in
  by_cases h : l.any (fun a => a.member_id == mid) = true
  · left
    rw [if_pos h, List.map_map]
    apply List.map_congr_left
    intro a _
    simp only [Function.comp_apply]
    split <;> rfl
  · right
    rw [if_neg h]
    refine ⟨by simp, ?_⟩
    intro hmem
    rw [List.mem_map] at hmem
    obtain ⟨a, ha, hae⟩ := hmem
    apply h
    rw [List.any_eq_true]
    exact ⟨a, ha, by simp [hae]⟩

lemma upsert_check_out_member_ids (mid : Nat) (now : DateTime)
    (l : List AttendanceRow) :
    (upsert_check_out mid now l).map AttendanceRow.member_id =
        l.map AttendanceRow.member_id ∨
      ((upsert_check_out mid now l).map AttendanceRow.member_id =
          l.map AttendanceRow.member_id ++ [mid] ∧
        mid ∉ l.map AttendanceRow.member_id) := by
  unfold upsert_check_out
  by_cases h : l.any (fun a => a.member_id == mid) = true
  · left
    rw [if_pos h, List.map_map]
    apply List.map_congr_left
    intro a _
    simp only [Function.comp_apply]
    split <;> rfl
  · right
    rw [if_neg h]
    refine ⟨by simp, ?_⟩
    intro hmem
    rw [List.mem_map] at hmem
    obtain ⟨a, ha, hae⟩ := hmem
    apply h
    rw [List.any_eq_true]
    exact ⟨a, ha, by simp [hae]⟩

lemma upsert_check_in_nodup (mid : Nat) (now : DateTime)
    (l : List AttendanceRow) (h : (l.map AttendanceRow.member_id).Nodup) :
    ((upsert_check_in mid now l).map AttendanceRow.member_id).Nodup := by
  rcases upsert_check_in_member_ids mid now l with heq | ⟨heq, hnm⟩
  · rwa [heq]
  · rw [heq]
    rw [(List.perm_append_singleton mid
      (l.map AttendanceRow.member_id)).nodup_iff]
    exact List.nodup_cons.mpr ⟨hnm, h⟩

lemma upsert_check_out_nodup (mid : Nat) (now : DateTime)
    (l : List AttendanceRow) (h : (l.map AttendanceRow.member_id).Nodup) :
    ((upsert_check_out mid now l).map AttendanceRow.member_id).Nodup := by
  rcases upsert_check_out_member_ids mid now l with heq | ⟨heq, hnm⟩
  · rwa [heq]
  · rw [heq]
    rw [(List.perm_append_singleton mid
      (l.map AttendanceRow.member_id)).nodup_iff]
    exact List.nodup_cons.mpr ⟨hnm, h⟩

lemma checkin_cc (i : Nat) (now : DateTime) (integ : Option String)
    (db : DB) :
    (checkin i now integ db).2.checkin_checkout = db.checkin_checkout ∨
      (checkin i now integ db).2.checkin_checkout =
        upsert_check_in i now db.checkin_checkout := by
  unfold checkin
  cases findMember db i with
  | none => left; rfl
  | some m =>
    by_cases hin : hasCheckIn (findAtt db i) = true
    · left; simp [hin]
    · cases integ with
      | none => right; simp [hin]
      | some cause => left; simp [hin]

lemma checkout_cc (i : Nat) (now : DateTime) (integ : Option String)
    (db : DB) :
    (checkout i now integ db).2.checkin_checkout = db.checkin_checkout ∨
      (checkout i now integ db).2.checkin_checkout =
        upsert_check_out i now db.checkin_checkout := by
  unfold checkout
  cases findMember db i with
  | none => left; rfl
  | some m =>
    by_cases hout : hasCheckOut (findAtt db i) = true
    · left; simp [hout]
    · cases integ with
      | none => right; simp [hout]
      | some cause => left; simp [hout]

lemma applyOp_attendanceUnique (db : DB) (op : Op)
    (h : attendanceUnique db) : attendanceUnique (applyOp db op) := by
  unfold attendanceUnique at *
  cases op with
  | create body =>
    simp only [applyOp, create_member_cc]
    exact h
  | update i mu =>
    simp only [applyOp, update_member_cc]
    exact h
  | checkIn i now integ =>
    simp only [applyOp]
    rcases checkin_cc i now integ db with hc | hc
    · rw [hc]; exact h
    · rw [hc]; exact upsert_check_in_nodup _ _ _ h
  | checkOut i now integ =>
    simp only [applyOp]
    rcases checkout_cc i now integ db with hc | hc
    · rw [hc]; exact h
    · rw [hc]; exact upsert_check_out_nodup _ _ _ h

/-! ### More lookup and freshness facts -/

lemma findMember_ext (db₁ db₂ : DB) (h : db₁.members = db₂.members)
    (i : Nat) : findMember db₁ i = findMember db₂ i := by
  unfold findMember
  rw [h]

lemma update_member_find (i : Nat) (mu : MemberUpdate) (db : DB)
    (m : MemberRow) (hm : findMember db i = some m)
    (hset : mu.full_name.isSome || mu.team_name.isSome) :
    findMember (update_member i mu db).2 i = some (applyUpdate mu i m) := by
  have hmem := update_member_members i mu db hset (by rw [hm]; rfl)
  have hext : findMember (update_member i mu db).2 i =
      findMember ⟨db.members.map (applyUpdate mu i), db.checkin_checkout⟩ i :=
    findMember_ext _ _ hmem i
  rw [hext, findMember_map_applyUpdate, hm]
  rfl

lemma applyUpdate_of_id (mu : MemberUpdate) (i : Nat) (m : MemberRow)
    (h : m.id = i) :
    applyUpdate mu i m =
      ⟨m.id, (Option.join mu.full_name).getD m.full_name,
        (Option.join mu.team_name).getD m.team_name⟩ := by
  unfold applyUpdate
  rw [if_pos (by simp [h])]

lemma findAtt_none_any (db : DB) (i : Nat) (ha : findAtt db i = none) :
    db.checkin_checkout.any (fun a => a.member_id == i) = false := by
  unfold findAtt at ha
  rw [List.any_eq_false]
  intro a haa
  exact List.find?_eq_none.mp ha a haa

lemma le_foldr_max (l : List Nat) : ∀ x ∈ l, x ≤ l.foldr max 0 := by
  induction l with
  | nil => intro x hx; cases hx
  | cons a t ih =>
    intro x hx
    rcases List.mem_cons.mp hx with h | h
    · rw [h, List.foldr_cons]
      exact le_max_left a _
    · exact le_trans (ih x h) (le_max_right a _)

lemma nextId_gt (db : DB) : ∀ m ∈ db.members, m.id < nextId db := by
  intro m hm
  unfold nextId
  have hmem : m.id ∈ db.members.map MemberRow.id :=
    List.mem_map_of_mem MemberRow.id hm
  have := le_foldr_max (db.members.map MemberRow.id) m.id hmem
  omega

lemma findMember_create (f t : String) (db : DB) :
    findMember (create_member ⟨some f, some t⟩ db).2 (nextId db) =
      some ⟨nextId db, f, t⟩ := by
  show findMember ⟨db.members ++ [⟨nextId db, f, t⟩], db.checkin_checkout⟩
    (nextId db) = some ⟨nextId db, f, t⟩
  unfold findMember
  rw [find?_append_left]
  · rw [List.find?_cons_of_pos _ (by simp)]
  · rw [List.find?_eq_none]
    intro m hm
    have := nextId_gt db m hm
    simp only [beq_iff_eq]
    omega

lemma findAtt_create (f t : String) (db : DB)
    (href : ∀ a ∈ db.checkin_checkout, ∃ m ∈ db.members, a.member_id = m.id) :
    findAtt (create_member ⟨some f, some t⟩ db).2 (nextId db) = none := by
  show findAtt ⟨db.members ++ [⟨nextId db, f, t⟩], db.checkin_checkout⟩
    (nextId db) = none
  unfold findAtt
  rw [List.find?_eq_none]
  intro a ha
  obtain ⟨m, hm, hid⟩ := href a ha
  have := nextId_gt db m hm
  simp only [beq_iff_eq]
  omega

lemma upsert_check_in_outs (mid : Nat) (now : DateTime)
    (l : List AttendanceRow) :
    (upsert_check_in mid now l).map (fun a => (a.member_id, a.check_out)) =
        l.map (fun a => (a.member_id, a.check_out)) ∨
      (upsert_check_in mid now l).map (fun a => (a.member_id, a.check_out)) =
        l.map (fun a => (a.member_id, a.check_out)) ++ [(mid, none)] := by
  unfold upsert_check_in
  by_cases h : l.any (fun a => a.member_id == mid) = true
  · left
    rw [if_pos h, List.map_map]
    apply List.map_congr_left
    intro a _
    simp only [Function.comp_apply]
    split <;> rfl
  · right
    rw [if_neg h]
    simp

/-! ### The claims -/

/-- Claim C1, counterexample: a CreateMember request whose `full_name` is
the empty string is accepted — the operation succeeds and a member row is
persisted, contrary to the claim that it fails with a validation error
and persists nothing. -/
theorem create_member_empty_name_accepted :
    (create_member ⟨some "", some "Robotics"⟩ ⟨[], []⟩).1 =
        Except.ok ⟨1, "", "Robotics", none, none⟩ ∧
      (create_member ⟨some "", some "Robotics"⟩ ⟨[], []⟩).2.members =
        [⟨1, "", "Robotics"⟩] :=
  ⟨rfl, rfl⟩

/-- Claim C1 as amended: a CreateMember request in which `full_name` or
`team_name` is missing fails with the validation error and no member row
is persisted; a request in which both fields are present — the empty
string included — succeeds and persists exactly one new row. -/
theorem create_member_validation (body : MemberCreateBody) (db : DB) :
    (body.full_name = none ∨ body.team_name = none →
      create_member body db = (Except.error validationError, db)) ∧
    (∀ f t, body.full_name = some f → body.team_name = some t →
      create_member body db =
        (Except.ok ⟨nextId db, f, t, none, none⟩,
         ⟨db.members ++ [⟨nextId db, f, t⟩], db.checkin_checkout⟩)) := by
  obtain ⟨bf, bt⟩ := body
  constructor
  · intro h
    simp only at h
    cases bf with
    | none => cases bt <;> rfl
    | some f =>
      cases bt with
      | none => rfl
      | some t =>
        rcases h with h | h <;> exact absurd h (by simp)
  · intro f t hf ht
    simp only at hf ht
    rw [hf, ht]
    rfl

/-- Claim C1 amended, witness: a request missing `full_name` is refused
with the store untouched, and a request carrying the empty string for
`full_name` persists the row. -/
theorem create_member_validation_witness :
    create_member ⟨none, some "Robotics"⟩ ⟨[], []⟩ =
        (Except.error validationError, ⟨[], []⟩) ∧
      create_member ⟨some "", some "Robotics"⟩ ⟨[], []⟩ =
        (Except.ok ⟨1, "", "Robotics", none, none⟩,
         ⟨[⟨1, "", "Robotics"⟩], []⟩) :=
  ⟨(create_member_validation ⟨none, some "Robotics"⟩ ⟨[], []⟩).1 (Or.inl rfl),
   (create_member_validation ⟨some "", some "Robotics"⟩ ⟨[], []⟩).2
     "" "Robotics" rfl rfl⟩

/-- Claim C2: in every store state reachable from a state satisfying the
UNIQUE(member_id) invariant by any sequence of CreateMember, UpdateMember,
CheckIn and CheckOut operations, there is at most one attendance row per
member id — no operation ever creates a second attendance row for the
same member. -/
theorem attendance_unique_invariant (db : DB) (ops : List Op)
    (h : attendanceUnique db) : attendanceUnique (applyOps db ops) := by
  induction ops generalizing db with
  | nil => exact h
  | cons op ops ih => exact ih (applyOp db op) (applyOp_attendanceUnique db op h)

/-- Claim C2, witness: two check-ins and a check-out against the same
member, starting from an empty attendance table, leave the attendance
table duplicate-free. -/
theorem attendance_unique_invariant_witness :
    attendanceUnique
      (applyOps ⟨[⟨1, "Alice", "Alpha"⟩], []⟩
        [Op.checkIn 1 ⟨2024, 3, 5, 14, 7, 0⟩ none,
         Op.checkIn 1 ⟨2024, 3, 5, 15, 0, 0⟩ none,
         Op.checkOut 1 ⟨2024, 3, 5, 16, 30, 0⟩ none]) :=
  attendance_unique_invariant ⟨[⟨1, "Alice", "Alpha"⟩], []⟩ _ (by decide)

/-- Claim C3: when a member exists and its attendance record already has
a non-null `check_in`, CheckIn returns the 200 "already checked in"
message and leaves the entire store state unchanged, for any current time
and any behaviour of the upsert — a second CheckIn after a first is a
no-op. -/
theorem checkin_idempotent (i : Nat) (now : DateTime) (integ : Option String)
    (db : DB) (m : MemberRow) (a : AttendanceRow)
    (hm : findMember db i = some m) (ha : findAtt db i = some a)
    (hin : a.check_in.isSome) :
    checkin i now integ db =
      (Except.ok ("The member " ++ m.full_name ++ " is already checked in."),
       db) := by
  unfold checkin
  rw [hm, ha]
  simp [hasCheckIn, hin]

/-- Claim C3, witness: checking in a member already checked in at
14:07 answers "already checked in" and preserves the stored state. -/
theorem checkin_idempotent_witness :
    checkin 1 ⟨2024, 3, 5, 15, 0, 0⟩ none
        ⟨[⟨1, "Alice", "Alpha"⟩], [⟨1, some ⟨2024, 3, 5, 14, 7, 0⟩, none⟩]⟩ =
      (Except.ok "The member Alice is already checked in.",
       ⟨[⟨1, "Alice", "Alpha"⟩], [⟨1, some ⟨2024, 3, 5, 14, 7, 0⟩, none⟩]⟩) :=
  checkin_idempotent 1 ⟨2024, 3, 5, 15, 0, 0⟩ none
    ⟨[⟨1, "Alice", "Alpha"⟩], [⟨1, some ⟨2024, 3, 5, 14, 7, 0⟩, none⟩]⟩
    ⟨1, "Alice", "Alpha"⟩ ⟨1, some ⟨2024, 3, 5, 14, 7, 0⟩, none⟩ rfl rfl rfl

/-- Claim C7: the display formatter renders a null timestamp as null; it
maps 2024-03-05T14:07:00 to "05-03-2024 02:07 PM"; and every timestamp
with in-range components is rendered as day-month-year hour:minute AM/PM
with two-digit day, two-digit month, four-digit year, zero-padded
12-hour clock (hour in 1..12) and uppercase AM/PM. -/
theorem format_datetime_spec :
    format_datetime none = none ∧
    format_datetime (some ⟨2024, 3, 5, 14, 7, 0⟩) =
        some "05-03-2024 02:07 PM" ∧
    ∀ dt : DateTime, dt.day < 100 → dt.month < 100 → dt.year < 10000 →
      dt.minute < 100 →
      ∃ d mo y hh mi ap,
        format_datetime (some dt) =
            some (d ++ "-" ++ mo ++ "-" ++ y ++ " " ++ hh ++ ":" ++ mi ++
              " " ++ ap) ∧
          d.length = 2 ∧ mo.length = 2 ∧ y.length = 4 ∧ hh.length = 2 ∧
          mi.length = 2 ∧ (ap = "AM" ∨ ap = "PM") ∧
          hh = pad2 (hour12 dt.hour) ∧ 1 ≤ hour12 dt.hour ∧
          hour12 dt.hour ≤ 12 := by
  refine ⟨rfl, rfl, ?_⟩
  intro dt hd hm hy hmi
  exact ⟨pad2 dt.day, pad2 dt.month, pad4 dt.year, pad2 (hour12 dt.hour),
    pad2 dt.minute, ampm dt.hour, rfl, pad2_length hd, pad2_length hm,
    pad4_length hy,
    pad2_length (lt_of_le_of_lt (hour12_le dt.hour) (by omega)),
    pad2_length hmi, ampm_cases dt.hour, rfl, hour12_pos dt.hour,
    hour12_le dt.hour⟩

/-- Claim C7, witness: the structural rendering facts instantiated at
2024-03-05T14:07:00. -/
theorem format_datetime_spec_witness :
    ∃ d mo y hh mi ap,
      format_datetime (some ⟨2024, 3, 5, 14, 7, 0⟩) =
          some (d ++ "-" ++ mo ++ "-" ++ y ++ " " ++ hh ++ ":" ++ mi ++
            " " ++ ap) ∧
        d.length = 2 ∧ mo.length = 2 ∧ y.length = 4 ∧ hh.length = 2 ∧
        mi.length = 2 ∧ (ap = "AM" ∨ ap = "PM") ∧
        hh = pad2 (hour12 14) ∧ 1 ≤ hour12 14 ∧ hour12 14 ≤ 12 :=
  format_datetime_spec.2.2 ⟨2024, 3, 5, 14, 7, 0⟩ (by decide) (by decide)
    (by decide) (by decide)

/-- Claim C8: on a member id absent from the store, GetMember,
UpdateMember, CheckIn and CheckOut each fail with the 404 response whose
detail is "Member not found" and leave the store unchanged. -/
theorem missing_member_not_found (i : Nat) (now : DateTime)
    (integ : Option String) (mu : MemberUpdate) (db : DB)
    (h : findMember db i = none) :
    get_member i db = (Except.error notFound, db) ∧
    update_member i mu db = (Except.error notFound, db) ∧
    checkin i now integ db = (Except.error notFound, db) ∧
    checkout i now integ db = (Except.error notFound, db) ∧
    notFound = ⟨404, "Member not found"⟩ := by
  refine ⟨?_, ?_, ?_, ?_, rfl⟩
  · unfold get_member
    rw [h]
  · unfold update_member
    rw [h]
  · unfold checkin
    rw [h]
  · unfold checkout
    rw [h]

/-- Claim C8, witness: id 2 is absent from a one-member store; all four
operations answer 404 "Member not found" without touching the store. -/
theorem missing_member_not_found_witness :
    get_member 2 ⟨[⟨1, "Alice", "Alpha"⟩], []⟩ =
        (Except.error notFound, ⟨[⟨1, "Alice", "Alpha"⟩], []⟩) ∧
      update_member 2 ⟨some (some "Bob"), none⟩ ⟨[⟨1, "Alice", "Alpha"⟩], []⟩ =
        (Except.error notFound, ⟨[⟨1, "Alice", "Alpha"⟩], []⟩) ∧
      checkin 2 ⟨2024, 3, 5, 14, 7, 0⟩ none ⟨[⟨1, "Alice", "Alpha"⟩], []⟩ =
        (Except.error notFound, ⟨[⟨1, "Alice", "Alpha"⟩], []⟩) ∧
      checkout 2 ⟨2024, 3, 5, 14, 7, 0⟩ none ⟨[⟨1, "Alice", "Alpha"⟩], []⟩ =
        (Except.error notFound, ⟨[⟨1, "Alice", "Alpha"⟩], []⟩) ∧
      notFound = ⟨404, "Member not found"⟩ :=
  missing_member_not_found 2 ⟨2024, 3, 5, 14, 7, 0⟩ none
    ⟨some (some "Bob"), none⟩ ⟨[⟨1, "Alice", "Alpha"⟩], []⟩ rfl

/-- Claim C4: for an existing member, UpdateMember never touches the
attendance table; the member afterwards carries exactly the supplied
non-null fields, absent (or null) fields keeping their prior values; and
an update supplying no fields leaves the store unchanged and returns the
member's current state. -/
theorem update_member_frame (i : Nat) (mu : MemberUpdate) (db : DB)
    (m : MemberRow) (hm : findMember db i = some m) :
    (update_member i mu db).2.checkin_checkout = db.checkin_checkout ∧
    findMember (update_member i mu db).2 i =
      some ⟨m.id, (Option.join mu.full_name).getD m.full_name,
        (Option.join mu.team_name).getD m.team_name⟩ ∧
    (mu.full_name = none → mu.team_name = none →
      update_member i mu db =
        (Except.ok (memberOut m (findAtt db i)), db)) := by
  refine ⟨update_member_cc i mu db, ?_, ?_⟩
  · by_cases hset : (mu.full_name.isSome || mu.team_name.isSome) = true
    · rw [update_member_find i mu db m hm hset,
        applyUpdate_of_id mu i m (findMember_some_id hm)]
    · cases hfn : mu.full_name with
      | some v => rw [hfn] at hset; simp at hset
      | none =>
        cases htn : mu.team_name with
        | some v => rw [hfn, htn] at hset; simp at hset
        | none =>
          rw [update_member_members_noset i mu db
            (by rw [hfn, htn]; simp), hm]
          rfl
  · intro hf ht
    have hset : (mu.full_name.isSome || mu.team_name.isSome) = false := by
      rw [hf, ht]
      rfl
    unfold update_member
    rw [hm, if_neg (by rw [hset]; exact Bool.false_ne_true)]
    simp only [hm]

/-- Claim C4, witness: updating only `team_name` of member 1 leaves
`full_name` and the attendance row unchanged. -/
theorem update_member_frame_witness :
    (update_member 1 ⟨none, some (some "Beta")⟩
          ⟨[⟨1, "Alice", "Alpha"⟩],
           [⟨1, some ⟨2024, 3, 5, 14, 7, 0⟩, none⟩]⟩).2.checkin_checkout =
        [⟨1, some ⟨2024, 3, 5, 14, 7, 0⟩, none⟩] ∧
      findMember
          (update_member 1 ⟨none, some (some "Beta")⟩
            ⟨[⟨1, "Alice", "Alpha"⟩],
             [⟨1, some ⟨2024, 3, 5, 14, 7, 0⟩, none⟩]⟩).2 1 =
        some ⟨1, "Alice", "Beta"⟩ :=
  ⟨(update_member_frame 1 ⟨none, some (some "Beta")⟩
      ⟨[⟨1, "Alice", "Alpha"⟩], [⟨1, some ⟨2024, 3, 5, 14, 7, 0⟩, none⟩]⟩
      ⟨1, "Alice", "Alpha"⟩ rfl).1,
   (update_member_frame 1 ⟨none, some (some "Beta")⟩
      ⟨[⟨1, "Alice", "Alpha"⟩], [⟨1, some ⟨2024, 3, 5, 14, 7, 0⟩, none⟩]⟩
      ⟨1, "Alice", "Alpha"⟩ rfl).2.1⟩

/-- Claim C5: CheckOut operates on `check_out` independently of
`check_in`: for an existing member with no attendance row yet, CheckOut
succeeds, appends a row whose `check_out` is set and whose `check_in` is
null; and CheckIn never modifies any row's `check_out` (the member-id /
check-out pairs of the attendance table are preserved, a fresh row
carrying a null check-out). -/
theorem checkout_independent (i : Nat) (now : DateTime) (db : DB)
    (m : MemberRow) (hm : findMember db i = some m)
    (ha : findAtt db i = none) :
    checkout i now none db =
      (Except.ok ("The member " ++ m.full_name ++ " has checked out at " ++
          strftime now ++ "."),
       ⟨db.members, db.checkin_checkout ++ [⟨i, none, some now⟩]⟩) ∧
    ∀ (j : Nat) (now₂ : DateTime) (integ : Option String) (db₂ : DB),
      (checkin j now₂ integ db₂).2.checkin_checkout.map
          (fun a => (a.member_id, a.check_out)) =
        db₂.checkin_checkout.map (fun a => (a.member_id, a.check_out)) ∨
      (checkin j now₂ integ db₂).2.checkin_checkout.map
          (fun a => (a.member_id, a.check_out)) =
        db₂.checkin_checkout.map (fun a => (a.member_id, a.check_out)) ++
          [(j, none)] := by
  constructor
  · have hany := findAtt_none_any db i ha
    unfold checkout
    rw [hm, ha]
    simp only [hasCheckOut]
    rw [if_neg Bool.false_ne_true]
    unfold upsert_check_out
    rw [if_neg (by rw [hany]; exact Bool.false_ne_true)]
  · intro j now₂ integ db₂
    rcases checkin_cc j now₂ integ db₂ with hc | hc
    · left
      rw [hc]
    · rw [hc]
      exact upsert_check_in_outs j now₂ db₂.checkin_checkout

/-- Claim C5, witness: member 1 has never checked in; CheckOut succeeds
and the stored row has a null `check_in`; a CheckIn against an empty
attendance table preserves all member-id / check-out pairs. -/
theorem checkout_independent_witness :
    checkout 1 ⟨2024, 3, 5, 14, 7, 0⟩ none ⟨[⟨1, "Alice", "Alpha"⟩], []⟩ =
      (Except.ok "The member Alice has checked out at 05-03-2024 02:07 PM.",
       ⟨[⟨1, "Alice", "Alpha"⟩],
        [⟨1, none, some ⟨2024, 3, 5, 14, 7, 0⟩⟩]⟩) ∧
    ((checkin 1 ⟨2024, 3, 5, 14, 7, 0⟩ none
          ⟨[⟨1, "Alice", "Alpha"⟩], []⟩).2.checkin_checkout.map
        (fun a => (a.member_id, a.check_out)) =
      ([] : List AttendanceRow).map (fun a => (a.member_id, a.check_out)) ∨
    (checkin 1 ⟨2024, 3, 5, 14, 7, 0⟩ none
          ⟨[⟨1, "Alice", "Alpha"⟩], []⟩).2.checkin_checkout.map
        (fun a => (a.member_id, a.check_out)) =
      ([] : List AttendanceRow).map (fun a => (a.member_id, a.check_out)) ++
        [(1, none)]) :=
  ⟨(checkout_independent 1 ⟨2024, 3, 5, 14, 7, 0⟩
      ⟨[⟨1, "Alice", "Alpha"⟩], []⟩ ⟨1, "Alice", "Alpha"⟩ rfl rfl).1,
   (checkout_independent 1 ⟨2024, 3, 5, 14, 7, 0⟩
      ⟨[⟨1, "Alice", "Alpha"⟩], []⟩ ⟨1, "Alice", "Alpha"⟩ rfl rfl).2
     1 ⟨2024, 3, 5, 14, 7, 0⟩ none ⟨[⟨1, "Alice", "Alpha"⟩], []⟩⟩

/-- Claim C6: whenever the attendance upsert actually runs and raises an
integrity error, the operation fails with a 500 response whose detail
carries the underlying cause, and the write is rolled back: the store is
returned exactly in its pre-operation state.  CheckIn's upsert runs
whenever the member's `check_in` is unset, independently of `check_out`,
and symmetrically for CheckOut, so each half carries only its own
guard. -/
theorem integrity_error_rolls_back (i : Nat) (now : DateTime)
    (cause : String) (db : DB) (m : MemberRow)
    (hm : findMember db i = some m) :
    (hasCheckIn (findAtt db i) = false →
      checkin i now (some cause) db =
        (Except.error
          ⟨500, "Database integrity error during check-in: " ++ cause⟩,
         db)) ∧
    (hasCheckOut (findAtt db i) = false →
      checkout i now (some cause) db =
        (Except.error
          ⟨500, "Database integrity error during check-out: " ++ cause⟩,
         db)) := by
  constructor
  · intro hin
    unfold checkin
    rw [hm]
    simp [hin]
  · intro hout
    unfold checkout
    rw [hm]
    simp [hout]

/-- Claim C6, witness: a member who checked out first (row with
`check_out` set, `check_in` null) hits an integrity failure on check-in:
the 500 carries the cause and the store — the existing attendance row
included — is unchanged; symmetrically for check-out after a prior
check-in. -/
theorem integrity_error_rolls_back_witness :
    checkin 1 ⟨2024, 3, 5, 14, 7, 0⟩
        (some "UNIQUE constraint failed: checkin_checkout.member_id")
        ⟨[⟨1, "Alice", "Alpha"⟩],
         [⟨1, none, some ⟨2024, 3, 5, 12, 0, 0⟩⟩]⟩ =
      (Except.error
        ⟨500,
         "Database integrity error during check-in: UNIQUE constraint failed: checkin_checkout.member_id"⟩,
       ⟨[⟨1, "Alice", "Alpha"⟩],
        [⟨1, none, some ⟨2024, 3, 5, 12, 0, 0⟩⟩]⟩) ∧
    checkout 1 ⟨2024, 3, 5, 14, 7, 0⟩
        (some "UNIQUE constraint failed: checkin_checkout.member_id")
        ⟨[⟨1, "Alice", "Alpha"⟩],
         [⟨1, some ⟨2024, 3, 5, 12, 0, 0⟩, none⟩]⟩ =
      (Except.error
        ⟨500,
         "Database integrity error during check-out: UNIQUE constraint failed: checkin_checkout.member_id"⟩,
       ⟨[⟨1, "Alice", "Alpha"⟩],
        [⟨1, some ⟨2024, 3, 5, 12, 0, 0⟩, none⟩]⟩) :=
  ⟨(integrity_error_rolls_back 1 ⟨2024, 3, 5, 14, 7, 0⟩
      "UNIQUE constraint failed: checkin_checkout.member_id"
      ⟨[⟨1, "Alice", "Alpha"⟩], [⟨1, none, some ⟨2024, 3, 5, 12, 0, 0⟩⟩]⟩
      ⟨1, "Alice", "Alpha"⟩ rfl).1 rfl,
   (integrity_error_rolls_back 1 ⟨2024, 3, 5, 14, 7, 0⟩
      "UNIQUE constraint failed: checkin_checkout.member_id"
      ⟨[⟨1, "Alice", "Alpha"⟩], [⟨1, some ⟨2024, 3, 5, 12, 0, 0⟩, none⟩]⟩
      ⟨1, "Alice", "Alpha"⟩ rfl).2 rfl⟩

/-- Claim C9: a successful CreateMember returns the stored names with
null attendance fields, and GetMember on the returned fresh id
immediately afterwards returns the identical full_name and team_name
together with null check_in and check_out.  (The hypothesis is the
referential invariant of reachable stores: every attendance row belongs
to an existing member.) -/
theorem create_then_get_roundtrip (f t : String) (db : DB)
    (href : ∀ a ∈ db.checkin_checkout, ∃ m ∈ db.members, a.member_id = m.id) :
    (create_member ⟨some f, some t⟩ db).1 =
        Except.ok ⟨nextId db, f, t, none, none⟩ ∧
      get_member (nextId db) (create_member ⟨some f, some t⟩ db).2 =
        (Except.ok ⟨nextId db, f, t, none, none⟩,
         (create_member ⟨some f, some t⟩ db).2) := by
  refine ⟨rfl, ?_⟩
  unfold get_member
  rw [findMember_create, findAtt_create f t db href]
  rfl

/-- Claim C9, witness: creating "Bob"/"Beta" in a one-member store with
an attendance row yields id 2, and reading id 2 back returns the same
names with null attendance fields. -/
theorem create_then_get_roundtrip_witness :
    (create_member ⟨some "Bob", some "Beta"⟩
          ⟨[⟨1, "Alice", "Alpha"⟩],
           [⟨1, some ⟨2024, 3, 5, 14, 7, 0⟩, none⟩]⟩).1 =
        Except.ok ⟨2, "Bob", "Beta", none, none⟩ ∧
      get_member 2
          (create_member ⟨some "Bob", some "Beta"⟩
            ⟨[⟨1, "Alice", "Alpha"⟩],
             [⟨1, some ⟨2024, 3, 5, 14, 7, 0⟩, none⟩]⟩).2 =
        (Except.ok ⟨2, "Bob", "Beta", none, none⟩,
         (create_member ⟨some "Bob", some "Beta"⟩
           ⟨[⟨1, "Alice", "Alpha"⟩],
            [⟨1, some ⟨2024, 3, 5, 14, 7, 0⟩, none⟩]⟩).2) :=
  create_then_get_roundtrip "Bob" "Beta"
    ⟨[⟨1, "Alice", "Alpha"⟩], [⟨1, some ⟨2024, 3, 5, 14, 7, 0⟩, none⟩]⟩
    (by decide)

/-- Claim C10: an UpdateMember body carrying an explicitly null field
leaves that stored field unchanged, exactly as when the field is absent:
explicit null is never written through to `full_name` or `team_name`. -/
theorem update_explicit_null_ignored (i : Nat) (mu : MemberUpdate) (db : DB)
    (m : MemberRow) (hm : findMember db i = some m) :
    (mu.full_name = some none →
      findMember (update_member i mu db).2 i =
        some ⟨m.id, m.full_name,
          (Option.join mu.team_name).getD m.team_name⟩) ∧
    (mu.team_name = some none →
      findMember (update_member i mu db).2 i =
        some ⟨m.id, (Option.join mu.full_name).getD m.full_name,
          m.team_name⟩) := by
  constructor
  · intro hf
    have hset : (mu.full_name.isSome || mu.team_name.isSome) = true := by
      rw [hf]
      rfl
    rw [update_member_find i mu db m hm hset,
      applyUpdate_of_id mu i m (findMember_some_id hm), hf]
    rfl
  · intro ht
    have hset : (mu.full_name.isSome || mu.team_name.isSome) = true := by
      rw [ht]
      simp
    rw [update_member_find i mu db m hm hset,
      applyUpdate_of_id mu i m (findMember_some_id hm), ht]
    rfl

/-- Claim C10, witness: a body setting both fields to explicit null
leaves member 1 entirely unchanged. -/
theorem update_explicit_null_ignored_witness :
    findMember
        (update_member 1 ⟨some none, some none⟩
          ⟨[⟨1, "Alice", "Alpha"⟩], []⟩).2 1 =
      some ⟨1, "Alice", "Alpha"⟩ :=
  (update_explicit_null_ignored 1 ⟨some none, some none⟩
    ⟨[⟨1, "Alice", "Alpha"⟩], []⟩ ⟨1, "Alice", "Alpha"⟩ rfl).1 rfl

end HseExpo
